import Mathlib

/-!
# BananaDB Collector — verification of the capture-and-confirm flow

Shallow embedding of the browser extension's two components:

* the Dialog Presenter (`src/extension/content.js`, `showPromptInputDialog`):
  modal dialog lifecycle, its exit paths and the outbound save message;
* the Capture Coordinator (background script, `src/unnamed/part_000`):
  the context-menu click handler and `handleSaveImage`, which performs the
  HTTP call and raises exactly one notification.

The DOM and the network are modelled as explicit data: a page state records
whether the dialog element with id `bananadb-dialog` is attached and how many
document-level keydown listeners are registered; the result of `fetch` is the
environmental input of `handleSaveImage`.  JavaScript truthiness on strings
(`s || fallback`) is modelled by `jsOrStr`; `String.trim` embeds
`String.prototype.trim`.
-/

/-- JavaScript `a || b` on strings: the empty string is falsy. -/
def jsOrStr (a b : String) : String :=
  if a = "" then b else a

/-- JavaScript `String.prototype.trim`: drop leading and trailing whitespace
characters. -/
def jsTrim (s : String) : String :=
  ⟨((s.data.dropWhile Char.isWhitespace).reverse.dropWhile
      Char.isWhitespace).reverse⟩

/-- Substring test: `strContains s sub = true` iff `sub` occurs contiguously
inside `s`. -/
def strContains (s sub : String) : Bool :=
  s.data.tails.any (fun t => sub.data.isPrefixOf t)

/-! ## Dialog Presenter (`content.js`, `showPromptInputDialog`) -/

/-- The outbound message built by the Save-button handler
(`chrome.runtime.sendMessage({action: 'saveImage', ...})`). -/
structure SaveMessage where
  action : String
  imageUrl : String
  pageUrl : String
  promptText : String
  skipAI : Bool
deriving Repr, DecidableEq

/-- One dialog session: the overlay element (id `bananadb-dialog`) and the
`escHandler` keydown listener the session registered on the document.
`overlayAttached` records whether the overlay is still in the DOM;
`escRegistered` whether this session's keydown listener is still registered. -/
structure Session where
  imageUrl : String
  pageUrl : String
  overlayAttached : Bool
  escRegistered : Bool
deriving Repr, DecidableEq

/-- The session as `showPromptInputDialog` leaves it after construction:
overlay appended to the body, `escHandler` added as a document keydown
listener. -/
def initSession (imageUrl pageUrl : String) : Session :=
  { imageUrl := imageUrl, pageUrl := pageUrl
    overlayAttached := true, escRegistered := true }

/-- UI events a session can receive.  A click inside the dialog bubbles to the
overlay's click listener with `targetIsOverlay = false`; a click on the dark
backdrop has `targetIsOverlay = true`. -/
inductive UiEvent where
  | cancelClick
  | saveClick (textareaValue : String) (skipChecked : Bool)
  | overlayClick (targetIsOverlay : Bool)
  | keydown (key : String)
deriving Repr, DecidableEq

/-- One step of the dialog's event handling, straight from the four listeners
in `showPromptInputDialog`:

* Cancel button: `overlay.remove()` — nothing else;
* Save button: read `textarea.value.trim()` and the checkbox, send the
  `saveImage` message, then `overlay.remove()`;
* overlay click: `if (e.target === overlay) overlay.remove()`;
* `escHandler` on document keydown: on `'Escape'`, `overlay.remove()` and
  `document.removeEventListener('keydown', escHandler)`.

Button and overlay clicks can only occur while the overlay is attached (a
removed element receives no clicks); the keydown listener lives on the
document and fires as long as it is registered, even after the overlay has
been removed (`overlay.remove()` on a detached node is then a no-op). -/
def sessionStep (s : Session) : UiEvent → Session × List SaveMessage
  | .cancelClick =>
    if s.overlayAttached then
      ({ s with overlayAttached := false }, [])
    else (s, [])
  | .saveClick v c =>
    if s.overlayAttached then
      ({ s with overlayAttached := false },
        [{ action := "saveImage", imageUrl := s.imageUrl, pageUrl := s.pageUrl
           promptText := jsTrim v, skipAI := c }])
    else (s, [])
  | .overlayClick tgt =>
    if s.overlayAttached && tgt then
      ({ s with overlayAttached := false }, [])
    else (s, [])
  | .keydown k =>
    if s.escRegistered && k = "Escape" then
      ({ s with overlayAttached := false, escRegistered := false }, [])
    else (s, [])

/-- Run a session through a list of UI events, collecting every outbound
message. -/
def runSession (s : Session) : List UiEvent → Session × List SaveMessage
  | [] => (s, [])
  | e :: es =>
    ((runSession (sessionStep s e).1 es).1,
      (sessionStep s e).2 ++ (runSession (sessionStep s e).1 es).2)

/-- The page context seen by `showPromptInputDialog`: whether an element with
id `bananadb-dialog` is attached (`document.getElementById` guard) and how
many keydown listeners are currently registered on the document. -/
structure Page where
  dialogAttached : Bool
  keydownListeners : Nat
deriving Repr, DecidableEq

/-- A page with no dialog and no keydown listener registered. -/
def emptyPage : Page :=
  { dialogAttached := false, keydownListeners := 0 }

/-- `showPromptInputDialog(imageUrl, pageUrl)`: if an element with id
`bananadb-dialog` already exists the call returns immediately; otherwise it
builds the overlay, appends it, wires the listeners (one more document-level
keydown listener) and yields the new session. -/
def present (imageUrl pageUrl : String) (pg : Page) : Page × Option Session :=
  if pg.dialogAttached then
    (pg, none)
  else
    ({ dialogAttached := true, keydownListeners := pg.keydownListeners + 1 },
      some (initSession imageUrl pageUrl))

/-! ## Capture Coordinator (background script) -/

/-- A notification raised via `chrome.notifications.create`. -/
structure NotificationEvent where
  title : String
  message : String
deriving Repr, DecidableEq

/-- Title of the success notification (`'✅ 儲存成功'`). -/
def successTitle : String := "✅ 儲存成功"

/-- Title of the failure notification (`'❌ 儲存失敗'`). -/
def failTitle : String := "❌ 儲存失敗"

/-- The generic fallback text used when a caught error carries no message
(`'請確認 BananaDB 伺服器正在執行 (http://localhost:8000)'`). -/
def genericUnreachableMsg : String :=
  "請確認 BananaDB 伺服器正在執行 (http://localhost:8000)"

/-- Observable effects of the context-menu click handler. -/
inductive BgEffect where
  | notify (title message : String)
  | injectContentScript
  | sendShowDialog (imageUrl pageUrl : String)
  | httpPost
deriving Repr, DecidableEq

/-- `chrome.contextMenus.onClicked` handler: for the `saveToBananaDB` item,
read `info.srcUrl`; if it is falsy (absent or empty) notify
`'無法取得圖片 URL'` ("cannot obtain image URL") and return; otherwise inject
the content script (failure tolerated) and send the `showPromptDialog`
message with the image URL and `tab.url || ''`.  The handler itself performs
no HTTP call. -/
def onContextMenuClicked (menuItemId : String) (srcUrl : Option String)
    (tabUrl : Option String) : List BgEffect :=
  if menuItemId = "saveToBananaDB" then
    match srcUrl with
    | none => [.notify "❌ 錯誤" "無法取得圖片 URL"]
    | some u =>
      if u = "" then [.notify "❌ 錯誤" "無法取得圖片 URL"]
      else
        [.injectContentScript,
         .sendShowDialog u (jsOrStr (tabUrl.getD "") "")]
  else []

/-- The JSON body of a response to `POST /api/collect_url`, as far as
`handleSaveImage` reads it: an optional string field `detail` and an optional
`data` object whose `image_id` field is itself optional
(`dataField = some none` models a `data` object without `image_id`). -/
structure ResponseBody where
  detail : Option String
  dataField : Option (Option Nat)
deriving Repr, DecidableEq

/-- An HTTP response: its status and its body, `none` when the body is not
parsable JSON (`response.json()` rejects). -/
structure HttpResponse where
  status : Nat
  body : Option ResponseBody
deriving Repr, DecidableEq

/-- A status code in the 2xx range. -/
def is2xx (status : Nat) : Bool :=
  decide (200 ≤ status) && decide (status < 300)

/-- `response.ok`: status in the 2xx range. -/
def HttpResponse.isOk (r : HttpResponse) : Bool :=
  is2xx r.status

/-- Outcome of `fetch`: either a network-level failure carrying the runtime
error's message, or a response. -/
inductive FetchResult where
  | netError (errMsg : String)
  | response (resp : HttpResponse)
deriving Repr, DecidableEq

/-- `handleSaveImage`, given the environmental outcome of its `fetch` call.
`parseErrMsg` is the runtime message of the `SyntaxError` thrown when
`response.json()` fails on the success path, `typeErrMsg` the message of the
`TypeError` thrown by `result.data.image_id` when `data` is absent; both are
engine-supplied strings.  The function mirrors the try/catch:

* network failure: the caught error's message, or the generic fallback when
  it is empty (`error.message || '請確認…'`);
* `!response.ok`: `errorData.detail || 'HTTP ' + status` is thrown and caught
  (a parse failure yields `{}`, so `detail` is then absent);
* `response.ok` with parsable body and a `data` object: one success
  notification interpolating `result.data.image_id` (a missing `image_id`
  prints as `undefined`);
* every other path lands in the catch and yields one failure notification. -/
def handleSaveImage (r : FetchResult) (parseErrMsg typeErrMsg : String) :
    List NotificationEvent :=
  match r with
  | .netError m => [⟨failTitle, jsOrStr m genericUnreachableMsg⟩]
  | .response resp =>
    if resp.isOk then
      match resp.body with
      | none => [⟨failTitle, jsOrStr parseErrMsg genericUnreachableMsg⟩]
      | some b =>
        match b.dataField with
        | none => [⟨failTitle, jsOrStr typeErrMsg genericUnreachableMsg⟩]
        | some idOpt =>
          [⟨successTitle,
            "圖片已新增至 BananaDB (ID: " ++
              (match idOpt with
               | some n => toString n
               | none => "undefined") ++ ")"⟩]
    else
      [⟨failTitle,
        jsOrStr ((resp.body.bind ResponseBody.detail).getD "")
          ("HTTP " ++ toString resp.status)⟩]

/-! ## Helper lemmas -/

theorem strContains_self (s : String) : strContains s s = true := by
  simp only [strContains, List.any_eq_true]
  exact ⟨s.data, by simp [List.mem_tails], by simp [ List.isPrefixOf_iff_prefix]⟩

theorem strContains_empty_sub (s : String) : strContains s "" = true := by
  simp only [strContains, List.any_eq_true]
  exact ⟨s.data, by simp [List.mem_tails], by simp [ List.isPrefixOf_iff_prefix]⟩

theorem strContains_append_right (a b : String) : strContains (a ++ b) b = true := by
  simp only [strContains, List.any_eq_true]
  refine ⟨b.data, ?_, by simp [ List.isPrefixOf_iff_prefix]⟩
  simp [List.mem_tails, String.data_append]

theorem strContains_append_mid (a b c : String) :
    strContains (a ++ b ++ c) b = true := by
  simp only [strContains, List.any_eq_true]
  refine ⟨b.data ++ c.data, ?_, ?_⟩
  · simp only [List.mem_tails, String.data_append]
    rw [List.append_assoc]
    exact List.suffix_append a.data (b.data ++ c.data)
  · simp [ List.isPrefixOf_iff_prefix]

/-- A step taken after the overlay has been removed keeps it removed and
emits nothing. -/
theorem sessionStep_detached (s : Session) (e : UiEvent)
    (h : s.overlayAttached = false) :
    (sessionStep s e).1.overlayAttached = false ∧ (sessionStep s e).2 = [] := by
  cases e <;> simp only [sessionStep, h] <;> (try split) <;> simp_all

/-- Once the overlay has been removed, a session emits no further messages. -/
theorem runSession_detached (es : List UiEvent) (s : Session)
    (h : s.overlayAttached = false) : (runSession s es).2 = [] := by
  induction es generalizing s with
  | nil => rfl
  | cons e es ih =>
    have h1 := sessionStep_detached s e h
    simp [runSession, h1.2, ih _ h1.1]

/-- Any single step emits no message, or emits exactly one and detaches the
overlay. -/
theorem sessionStep_emits (s : Session) (e : UiEvent) :
    (sessionStep s e).2 = [] ∨
    ((sessionStep s e).2.length = 1 ∧
      (sessionStep s e).1.overlayAttached = false) := by
  cases e <;> simp only [sessionStep] <;> split <;> simp_all

/-- A session emits at most one message over its whole lifetime. -/
theorem runSession_at_most_one (es : List UiEvent) (s : Session) :
    (runSession s es).2.length ≤ 1 := by
  induction es generalizing s with
  | nil => simp [runSession]
  | cons e es ih =>
    simp only [runSession, List.length_append]
    rcases sessionStep_emits s e with h | ⟨h1, h2⟩
    · rw [h]
      simpa using ih (sessionStep s e).1
    · rw [h1, runSession_detached es _ h2]
      simp

/-! ## Claims -/

/-- C1: at most one DialogSession exists per page context at a time.
`showPromptInputDialog` returns immediately when an element with id
`bananadb-dialog` already exists, so a second invocation before the first
dialog is dismissed creates no second dialog: from a page without the dialog,
the first call creates a session and attaches the element, and a second call
leaves the page unchanged and yields no session. -/
theorem present_singleton_session (u p u' p' : String) (pg : Page)
    (h : pg.dialogAttached = false) :
    (present u p pg).2.isSome = true ∧
    (present u p pg).1.dialogAttached = true ∧
    present u' p' (present u p pg).1 = ((present u p pg).1, none) := by
  simp [present, h]

theorem present_singleton_session_witness :
    emptyPage.dialogAttached = false ∧
    ((present "img" "page" emptyPage).2.isSome = true ∧
     (present "img" "page" emptyPage).1.dialogAttached = true ∧
     present "img2" "page2" (present "img" "page" emptyPage).1
       = ((present "img" "page" emptyPage).1, none)) :=
  ⟨by decide, present_singleton_session "img" "page" "img2" "page2" emptyPage
    (by decide)⟩

/-- C2: the claim that every exit path deregisters the document-level keydown
listener fails on the code.  Only the ESC branch calls
`document.removeEventListener('keydown', escHandler)`; the Cancel button, the
Save button and the outside-click handlers call `overlay.remove()` alone, so
after any of those dismissals the keydown listener is still registered (and
repeated open/dismiss cycles through those paths accumulate listeners).  The
theorem evaluates the model at the failing inputs: all three non-ESC exit
paths remove the overlay yet leave `escRegistered` true, while the ESC path
does deregister. -/
theorem dismissal_leaves_keydown_listener :
    (sessionStep (initSession "img" "page") UiEvent.cancelClick).1
      = { imageUrl := "img", pageUrl := "page",
          overlayAttached := false, escRegistered := true }
  ∧ (sessionStep (initSession "img" "page")
        (UiEvent.saveClick "prompt" false)).1.escRegistered = true
  ∧ (sessionStep (initSession "img" "page")
        (UiEvent.overlayClick true)).1.escRegistered = true
  ∧ (sessionStep (initSession "img" "page")
        (UiEvent.keydown "Escape")).1.escRegistered = false := by
  decide

/-- C4: a context-menu click on the `saveToBananaDB` item whose `info.srcUrl`
is absent (or empty, which is equally falsy in the source) produces exactly
the failure notification `'無法取得圖片 URL'` ("cannot obtain image URL") and
nothing else: no content-script injection, no `showPromptDialog` message, no
HTTP call. -/
theorem missing_image_url_fails_fast (t : Option String) :
    onContextMenuClicked "saveToBananaDB" none t
      = [BgEffect.notify "❌ 錯誤" "無法取得圖片 URL"]
  ∧ onContextMenuClicked "saveToBananaDB" (some "") t
      = [BgEffect.notify "❌ 錯誤" "無法取得圖片 URL"] := by
  constructor <;> rfl

/-- C7: when the `fetch` call fails at the network level, `handleSaveImage`
does not crash: it raises exactly one failure notification, whose message is
the caught error's own text with the generic unreachable-server text
(`'請確認 BananaDB 伺服器正在執行 (http://localhost:8000)'`) as the fallback
used when the error carries no message. -/
theorem network_failure_fallback_notification (m pe te : String) :
    handleSaveImage (FetchResult.netError m) pe te
      = [⟨failTitle, jsOrStr m genericUnreachableMsg⟩]
  ∧ handleSaveImage (FetchResult.netError "") pe te
      = [⟨failTitle, genericUnreachableMsg⟩]
  ∧ (handleSaveImage (FetchResult.netError m) pe te).length = 1 := by
  refine ⟨rfl, ?_, rfl⟩
  simp [handleSaveImage, jsOrStr]

/-- C10: a click whose target lies inside the dialog box never dismisses the
session — the overlay click handler removes the overlay only when
`e.target === overlay`.  A click with a non-overlay target leaves the session
unchanged and emits nothing, and in general the overlay stays attached
exactly when it was attached and the target is not the overlay. -/
theorem inside_click_never_dismisses (s : Session) (b : Bool) :
    sessionStep s (UiEvent.overlayClick false) = (s, [])
  ∧ (sessionStep s (UiEvent.overlayClick b)).1.overlayAttached
      = (s.overlayAttached && !b)
  ∧ (sessionStep s (UiEvent.overlayClick b)).2 = [] := by
  refine ⟨by simp [sessionStep], ?_, ?_⟩ <;>
    cases b <;> cases hs : s.overlayAttached <;> simp [sessionStep, hs]

/-- C3: the Save path emits exactly one outbound message, with action
`saveImage`; the Cancel, outside-click and keydown (ESC) paths emit none; and
over any sequence of UI events a session emits at most one message in total,
so the save message is never sent twice. -/
theorem save_message_exactly_once (s : Session) (v u p k : String)
    (c b : Bool) (es : List UiEvent) (h : s.overlayAttached = true) :
    sessionStep s (UiEvent.saveClick v c)
      = ({ s with overlayAttached := false },
         [{ action := "saveImage", imageUrl := s.imageUrl,
            pageUrl := s.pageUrl, promptText := jsTrim v, skipAI := c }])
  ∧ (sessionStep s UiEvent.cancelClick).2 = []
  ∧ (sessionStep s (UiEvent.overlayClick b)).2 = []
  ∧ (sessionStep s (UiEvent.keydown k)).2 = []
  ∧ (runSession (initSession u p) es).2.length ≤ 1 := by
  refine ⟨by simp [sessionStep, h], by simp [sessionStep, h], ?_, ?_,
    runSession_at_most_one es _⟩ <;>
    simp only [sessionStep] <;> split <;> rfl

theorem save_message_exactly_once_witness :
    (initSession "i" "g").overlayAttached = true ∧
    (sessionStep (initSession "i" "g") (UiEvent.saveClick "  hello  " true)
       = ({ initSession "i" "g" with overlayAttached := false },
          [{ action := "saveImage", imageUrl := (initSession "i" "g").imageUrl,
             pageUrl := (initSession "i" "g").pageUrl,
             promptText := jsTrim "  hello  ", skipAI := true }])
     ∧ (sessionStep (initSession "i" "g") UiEvent.cancelClick).2 = []
     ∧ (sessionStep (initSession "i" "g") (UiEvent.overlayClick false)).2 = []
     ∧ (sessionStep (initSession "i" "g") (UiEvent.keydown "Escape")).2 = []
     ∧ (runSession (initSession "u" "p") [UiEvent.cancelClick]).2.length ≤ 1) :=
  ⟨rfl, save_message_exactly_once (initSession "i" "g") "  hello  " "u" "p"
    "Escape" true false [UiEvent.cancelClick] rfl⟩

/-- C8: the `promptText` carried in the save message is the textarea content
with leading and trailing whitespace stripped (`textarea.value.trim()`), and
submitting with an empty prompt and an unchecked skip-AI box still produces a
valid save message with `promptText = ""` and `skipAI = false`. -/
theorem promptText_is_trimmed (s : Session) (v : String) (c : Bool)
    (h : s.overlayAttached = true) :
    sessionStep s (UiEvent.saveClick v c)
      = ({ s with overlayAttached := false },
         [{ action := "saveImage", imageUrl := s.imageUrl,
            pageUrl := s.pageUrl, promptText := jsTrim v, skipAI := c }])
  ∧ sessionStep s (UiEvent.saveClick "" false)
      = ({ s with overlayAttached := false },
         [{ action := "saveImage", imageUrl := s.imageUrl,
            pageUrl := s.pageUrl, promptText := "", skipAI := false }]) := by
  have h0 : jsTrim "" = "" := by decide
  exact ⟨by simp [sessionStep, h], by simp [sessionStep, h, h0]⟩

theorem promptText_is_trimmed_witness :
    (initSession "i" "g").overlayAttached = true ∧
    (sessionStep (initSession "i" "g") (UiEvent.saveClick " a b " false)
       = ({ initSession "i" "g" with overlayAttached := false },
          [{ action := "saveImage", imageUrl := (initSession "i" "g").imageUrl,
             pageUrl := (initSession "i" "g").pageUrl,
             promptText := jsTrim " a b ", skipAI := false }])
     ∧ sessionStep (initSession "i" "g") (UiEvent.saveClick "" false)
       = ({ initSession "i" "g" with overlayAttached := false },
          [{ action := "saveImage", imageUrl := (initSession "i" "g").imageUrl,
             pageUrl := (initSession "i" "g").pageUrl,
             promptText := "", skipAI := false }])) :=
  ⟨rfl, promptText_is_trimmed (initSession "i" "g") " a b " false rfl⟩

/-- C5: a 2xx response whose parsable body carries a nested
`data.image_id` record yields exactly one success notification whose message
contains that identifier. -/
theorem success_notification_contains_id (status idv : Nat) (d : Option String)
    (pe te : String) (h : is2xx status = true) :
    handleSaveImage
        (FetchResult.response ⟨status, some ⟨d, some (some idv)⟩⟩) pe te
      = [⟨successTitle, "圖片已新增至 BananaDB (ID: " ++ toString idv ++ ")"⟩]
  ∧ strContains ("圖片已新增至 BananaDB (ID: " ++ toString idv ++ ")")
      (toString idv) = true :=
  ⟨by simp [handleSaveImage, HttpResponse.isOk, h],
   strContains_append_mid _ _ _⟩

theorem success_notification_contains_id_witness :
    is2xx 200 = true ∧
    (handleSaveImage
        (FetchResult.response ⟨200, some ⟨none, some (some 42)⟩⟩) "" ""
       = [⟨successTitle, "圖片已新增至 BananaDB (ID: " ++ toString 42 ++ ")"⟩]
     ∧ strContains ("圖片已新增至 BananaDB (ID: " ++ toString 42 ++ ")")
         (toString 42) = true) :=
  ⟨by decide, success_notification_contains_id 200 42 none "" "" (by decide)⟩

/-- C6: a non-2xx response yields a failure notification; when the body
parses and carries a `detail` field the message contains it (it *is* the
detail when the detail is nonempty, and collapses to `HTTP <status>` — which
still contains the empty detail — when it is empty); when the body is
unparsable (`errorData` is `{}`) or carries no `detail`, the message is
`HTTP <status>`, which contains the status. -/
theorem failure_notification_has_detail (status : Nat) (d pe te : String)
    (df df' : Option (Option Nat)) (h : is2xx status = false) :
    (handleSaveImage (FetchResult.response ⟨status, some ⟨some d, df⟩⟩) pe te
        = [⟨failTitle, jsOrStr d ("HTTP " ++ toString status)⟩]
      ∧ strContains (jsOrStr d ("HTTP " ++ toString status)) d = true)
  ∧ handleSaveImage (FetchResult.response ⟨status, none⟩) pe te
      = [⟨failTitle, "HTTP " ++ toString status⟩]
  ∧ handleSaveImage (FetchResult.response ⟨status, some ⟨none, df'⟩⟩) pe te
      = [⟨failTitle, "HTTP " ++ toString status⟩]
  ∧ strContains ("HTTP " ++ toString status) (toString status) = true := by
  refine ⟨⟨?_, ?_⟩, ?_, ?_, strContains_append_right _ _⟩
  · simp [handleSaveImage, HttpResponse.isOk, h]
  · by_cases hd : d = ""
    · subst hd
      simp only [jsOrStr, if_pos rfl]
      exact strContains_empty_sub _
    · simp only [jsOrStr, if_neg hd]
      exact strContains_self d
  · simp [handleSaveImage, HttpResponse.isOk, h, jsOrStr]
  · simp [handleSaveImage, HttpResponse.isOk, h, jsOrStr]

theorem failure_notification_has_detail_witness :
    is2xx 404 = false ∧
    ((handleSaveImage
        (FetchResult.response ⟨404, some ⟨some "bad url", none⟩⟩) "" ""
        = [⟨failTitle, jsOrStr "bad url" ("HTTP " ++ toString 404)⟩]
      ∧ strContains (jsOrStr "bad url" ("HTTP " ++ toString 404)) "bad url"
          = true)
     ∧ handleSaveImage (FetchResult.response ⟨404, none⟩) "" ""
         = [⟨failTitle, "HTTP " ++ toString 404⟩]
     ∧ handleSaveImage (FetchResult.response ⟨404, some ⟨none, none⟩⟩) "" ""
         = [⟨failTitle, "HTTP " ++ toString 404⟩]
     ∧ strContains ("HTTP " ++ toString 404) (toString 404) = true) :=
  ⟨by decide, failure_notification_has_detail 404 "bad url" "" "" none none
    (by decide)⟩

/-- C9 counterexample: the claim promises a success notification for every
2xx response with a parsable body, but a 2xx response whose body parses to
`{}` (no `data` object) makes `result.data.image_id` throw, and the catch
block raises a *failure* notification. -/
theorem parsable_2xx_without_data_fails :
    is2xx 200 = true
  ∧ (handleSaveImage (FetchResult.response ⟨200, some ⟨none, none⟩⟩)
        "perr" "terr").map NotificationEvent.title = [failTitle]
  ∧ failTitle ≠ successTitle := by
  decide

/-- C9 (amended): `handleSaveImage` always completes and raises exactly one
notification — a success notification precisely when the response is 2xx
with a parsable body that contains a `data` object, and a failure
notification in every other case (network error, non-2xx, unparsable body,
or a parsable body without `data`); no save attempt ends silently. -/
theorem notification_exactly_once (r : FetchResult) (pe te : String) :
    (handleSaveImage r pe te).length = 1
  ∧ ((handleSaveImage r pe te).map NotificationEvent.title = [successTitle]
      ∨ (handleSaveImage r pe te).map NotificationEvent.title = [failTitle])
  ∧ ((handleSaveImage r pe te).map NotificationEvent.title = [successTitle]
      ↔ ∃ status d df,
          r = FetchResult.response ⟨status, some ⟨d, some df⟩⟩
          ∧ is2xx status = true) := by
  have hne : failTitle = successTitle ↔ False := by
    constructor
    · intro h
      exact absurd h (by decide)
    · intro h
      exact h.elim
  rcases r with m | ⟨status, body⟩
  · refine ⟨rfl, Or.inr rfl, ?_⟩
    simp [handleSaveImage, hne]
  · by_cases hok : is2xx status = true
    · rcases body with _ | ⟨d, df⟩
      · refine ⟨?_, Or.inr ?_, ?_⟩ <;>
          simp [handleSaveImage, HttpResponse.isOk, hok, hne]
      · rcases df with _ | idOpt
        · refine ⟨?_, Or.inr ?_, ?_⟩ <;>
            simp [handleSaveImage, HttpResponse.isOk, hok, hne]
        · refine ⟨?_, Or.inl ?_, ?_⟩ <;>
            simp [handleSaveImage, HttpResponse.isOk, hok, hne]
    · have hok' : is2xx status = false := by
        revert hok
        cases is2xx status <;> simp
      refine ⟨?_, Or.inr ?_, ?_⟩ <;>
        simp [handleSaveImage, HttpResponse.isOk, hok', hne]
